import Mathlib

/-!
Shallow embedding of the dimension-resolution / argument-validation layer of
the `linalg` repository (files `src/blas/level3.go` and `src/lapack/gesv.go`).

Machine floating-point values are modelled as `Option ℚ`: `some q` is a finite
value and `none` is NaN.  A complex value is a pair of components, each of
which may independently be NaN (as with Go's `complex128`, where
`cmplx.IsNaN` holds iff either component is NaN).  The external BLAS/LAPACK
kernels are out of scope of the layer (the repository treats them as external
collaborators); level-3 entry points therefore *record* the kernel invocation
they would perform, and `Gesv` is parameterized by the kernel functions it
calls.
-/

namespace LinalgModel

/-- A float64 value: `some q` finite, `none` NaN. -/
abbrev FloatV := Option ℚ

/-- A complex128 value: each component may independently be NaN (`none`). -/
abbrev CplxV := Option ℚ × Option ℚ

/-- `math.IsNaN` on the float model. -/
def fIsNaN (x : FloatV) : Bool := x.isNone

/-- `cmplx.IsNaN` on the complex model: true iff either component is NaN. -/
def cIsNaN (z : CplxV) : Bool := z.1.isNone || z.2.isNone

/-- The `alpha` / `beta` scalar argument of the Go entry points: a possibly-nil
`matrix.Matrix` singleton, either a real (FloatMatrix) or a complex
(ComplexMatrix) scalar. -/
inductive Scalar where
  | nil
  | real (v : FloatV)
  | cplx (v : CplxV)
deriving DecidableEq

/-- Modelled from the spec: the `matrix` package is not under `src/`.
`FloatValue` of a real singleton is its value; of a complex singleton it is
the real part when the imaginary part is exactly zero and NaN otherwise
(spec 4.4: a complex value supplied in the real domain must have an
exactly-zero imaginary component to be accepted, coerced to its real part). -/
def Scalar.FloatValue : Scalar → FloatV
  | .real v => v
  | .cplx (re, some i) => if i = 0 then re else Option.none
  | .cplx (_, Option.none) => Option.none
  | .nil => Option.none

/-- Modelled from the spec: the `matrix` package is not under `src/`.
`ComplexValue` of a complex singleton is its value; of a real singleton it is
NaN.  (This NaN-probe convention is what the source relies on: every complex
code path first reads `ComplexValue`, and on NaN falls back to `FloatValue` —
the fallback would be dead code under any other convention.) -/
def Scalar.ComplexValue : Scalar → CplxV
  | .cplx v => v
  | .real _ => (Option.none, Option.none)
  | .nil => (Option.none, Option.none)

/-- A dense matrix operand: row/column counts and the flat backing store. -/
structure MatData (α : Type) where
  rows : Nat
  cols : Nat
  data : List α
deriving DecidableEq

/-- A `matrix.Matrix` operand: real (FloatMatrix) or complex (ComplexMatrix). -/
inductive Matrix where
  | fm (m : MatData FloatV)
  | cm (m : MatData CplxV)
deriving DecidableEq

def Matrix.Rows : Matrix → Nat
  | .fm m => m.rows
  | .cm m => m.rows

def Matrix.Cols : Matrix → Nat
  | .fm m => m.cols
  | .cm m => m.cols

def Matrix.NumElements : Matrix → Nat
  | .fm m => m.data.length
  | .cm m => m.data.length

/-- Modelled from the spec: the `matrix` package is not under `src/`.
Spec 4.2 says the default leading stride is "max(1, native row count of that
operand)", while `gesv.go` reads `A.LeadingIndex()`; for the dense storage of
this library the leading index equals the row count. -/
def Matrix.LeadingIndex (A : Matrix) : Nat := A.Rows

/-- `MakeCopy` returns an independent deep copy.  In this value-semantics
embedding a deep copy of an immutable value is the value itself; the point of
the copy in `Gesv` — that kernel writes land on the copy and the caller's
operand is returned unchanged — is modelled by which value appears in the
call's outcome. -/
def Matrix.MakeCopy (A : Matrix) : Matrix := A

def Matrix.FloatArray : Matrix → List FloatV
  | .fm m => m.data
  | .cm _ => []

def Matrix.ComplexArray : Matrix → List CplxV
  | .cm m => m.data
  | .fm _ => []

/-- `matrix.EqualTypes` on two operands: same numeric domain. -/
def sameType : Matrix → Matrix → Bool
  | .fm _, .fm _ => true
  | .cm _, .cm _ => true
  | _, _ => false

def EqualTypes2 (A B : Matrix) : Bool := sameType A B

def EqualTypes3 (A B C : Matrix) : Bool := sameType A B && sameType A C

/-- Modelled from the spec: the `linalg` option package is not under `src/`.
The result of `linalg.GetIndexOpts`: every recognized index option carries
either the caller's value or its unset sentinel (negative for dimensions,
zero for strides, zero for offsets). -/
structure IndexOpts where
  M : Int
  N : Int
  K : Int
  Nrhs : Int
  LDa : Int
  LDb : Int
  LDc : Int
  OffsetA : Int
  OffsetB : Int
  OffsetC : Int
deriving DecidableEq

/-- All options unset: dimensions -1, strides and offsets 0. -/
def IndexOpts.unset : IndexOpts := ⟨-1, -1, -1, -1, 0, 0, 0, 0, 0, 0⟩

/-- Mode flags (`linalg.Param` values) used by the level-3 entry points. -/
inductive POpt where
  | noTrans
  | trans
  | conjTrans
  | left
  | right
  | lower
  | upper
  | unit
  | nonUnit
deriving DecidableEq

/-- Modelled from the spec: the `linalg` package is not under `src/`.
`linalg.ParamString` renders a mode flag as the one-letter string the kernels
expect; the exact letters are immaterial to every claim. -/
def ParamString : POpt → String
  | .noTrans => "N"
  | .trans => "T"
  | .conjTrans => "C"
  | .left => "L"
  | .right => "R"
  | .lower => "L"
  | .upper => "U"
  | .unit => "U"
  | .nonUnit => "N"

/-- The mode-flag part of `linalg.GetParameters`'s result. -/
structure Params where
  TransA : POpt
  TransB : POpt
  Trans : POpt
  Side : POpt
  Uplo : POpt
  Diag : POpt
deriving DecidableEq

/-- Level-3 function tags passed to `check_level3_func`. -/
inductive L3Fn where
  | fgemm
  | fsymm
  | fsyrk
  | fsyr2k
  | ftrmm
  | ftrsm
deriving DecidableEq

/-- `check_level3_func` (shape resolver and bounds validator of the level-3
family) lives in a file of this repository that is not under `src/`; the
level-3 entry points treat it as a black box that either fails or returns the
index options with all dimensions and strides resolved, so the embedding is
parameterized by it. -/
abbrev CheckFn :=
  IndexOpts → L3Fn → Matrix → Option Matrix → Option Matrix → Params →
    Except String IndexOpts

/-- A checker that accepts the options as already resolved (used to
instantiate the parameterized entry points at concrete inputs). -/
def checkOk : CheckFn := fun ind _ _ _ _ _ => Except.ok ind

/-- Record of one kernel invocation: entry-point name, mode-flag strings,
dimension arguments, real scalars, complex scalars, the (sliced) real and
complex arrays handed over, and the leading-dimension arguments. -/
structure KernelCall where
  name : String
  flags : List String
  dims : List Int
  fscal : List FloatV
  cscal : List CplxV
  arrF : List (List FloatV)
  arrC : List (List CplxV)
  lds : List Int
deriving DecidableEq

/-- Outcome of a level-3 entry point: an error, a success (with the kernel
invocation it performed, `none` when the call returned before reaching any
kernel), or a Go runtime panic. -/
inductive L3Out where
  | err (msg : String)
  | done (call : Option KernelCall)
  | panicked
deriving DecidableEq

/-- Go slice expression `xs[off:]`: panics unless `0 ≤ off ≤ len`. -/
def sliceFrom {α : Type} (xs : List α) (off : Int) : Option (List α) :=
  if 0 ≤ off ∧ off ≤ (xs.length : Int) then some (xs.drop off.toNat)
  else Option.none

/-- Go slice expression `xs[:k]` on a slice whose capacity equals its length:
panics unless `0 ≤ k ≤ len`. -/
def sliceTo {α : Type} (xs : List α) (k : Int) : Option (List α) :=
  if 0 ≤ k ∧ k ≤ (xs.length : Int) then some (xs.take k.toNat)
  else Option.none

/-- `blas.Gemm` (src/blas/level3.go lines 64-135), with `check_level3_func`
as a parameter and the kernel invocation recorded instead of executed.  The
complex scalar-coercion branches — including the inverted NaN tests and the
assignment of beta's fallback to `aval` — are translated exactly as written
in the source. -/
def Gemm (check : CheckFn) (A B C : Matrix) (alpha beta : Scalar)
    (params : Params) (opts : IndexOpts) : L3Out :=
  match check opts .fgemm A (some B) (some C) params with
  | .error e => .err e
  | .ok ind =>
    if ind.M = 0 ∨ ind.N = 0 then .done Option.none
    else if ¬ EqualTypes3 A B C then .err "Parameters not of same type"
    else
      match A with
      | .fm _ =>
        let Aa := A.FloatArray
        let Ba := B.FloatArray
        let Ca := C.FloatArray
        let aval : FloatV := match alpha with
          | .nil => some 1
          | s => s.FloatValue
        let bval : FloatV := match beta with
          | .nil => some 0
          | s => s.FloatValue
        if fIsNaN aval || fIsNaN bval then .err "alpha or beta not a number"
        else
          match sliceFrom Aa ind.OffsetA, sliceFrom Ba ind.OffsetB,
                sliceFrom Ca ind.OffsetC with
          | some sA, some sB, some sC =>
            .done (some ⟨"dgemm",
              [ParamString params.TransA, ParamString params.TransB],
              [ind.M, ind.N, ind.K], [aval, bval], [],
              [sA, sB, sC], [], [ind.LDa, ind.LDb, ind.LDc]⟩)
          | _, _, _ => .panicked
      | .cm _ =>
        let Aa := A.ComplexArray
        let Ba := B.ComplexArray
        let Ca := C.ComplexArray
        let avalE : Except String CplxV := match alpha with
          | .nil => .ok (some 1, some 0)
          | s =>
            let av := s.ComplexValue
            if cIsNaN av then .ok (s.FloatValue, some 0)
            else .error "alpha not a number"
        match avalE with
        | .error e => .err e
        | .ok aval0 =>
          let abE : Except String (CplxV × CplxV) := match beta with
            | .nil => .ok (aval0, (some 0, some 0))
            | s =>
              let bv := s.ComplexValue
              if cIsNaN bv then .ok ((s.FloatValue, some 0), bv)
              else .error "beta not a number"
          match abE with
          | .error e => .err e
          | .ok (aval, bval) =>
            match sliceFrom Aa ind.OffsetA, sliceFrom Ba ind.OffsetB,
                  sliceFrom Ca ind.OffsetC with
            | some sA, some sB, some sC =>
              .done (some ⟨"zgemm",
                [ParamString params.TransA, ParamString params.TransB],
                [ind.M, ind.N, ind.K], [], [aval, bval],
                [], [sA, sB, sC], [ind.LDa, ind.LDb, ind.LDc]⟩)
            | _, _, _ => .panicked

/-- `blas.Symm` (src/blas/level3.go lines 174-243).  Like `Gemm` it returns
early on `m = 0` or `n = 0`; in the complex path it invokes the Hermitian
kernel `zhemm`, and its complex scalar branches carry the same inverted NaN
tests as `Gemm` (without the `aval`/`bval` mix-up). -/
def Symm (check : CheckFn) (A B C : Matrix) (alpha beta : Scalar)
    (params : Params) (opts : IndexOpts) : L3Out :=
  match check opts .fsymm A (some B) (some C) params with
  | .error e => .err e
  | .ok ind =>
    if ind.M = 0 ∨ ind.N = 0 then .done Option.none
    else if ¬ EqualTypes3 A B C then .err "Parameters not of same type"
    else
      match A with
      | .fm _ =>
        let Aa := A.FloatArray
        let Ba := B.FloatArray
        let Ca := C.FloatArray
        let aval : FloatV := match alpha with
          | .nil => some 1
          | s => s.FloatValue
        let bval : FloatV := match beta with
          | .nil => some 0
          | s => s.FloatValue
        if fIsNaN aval || fIsNaN bval then .err "alpha or beta not a number"
        else
          match sliceFrom Aa ind.OffsetA, sliceFrom Ba ind.OffsetB,
                sliceFrom Ca ind.OffsetC with
          | some sA, some sB, some sC =>
            .done (some ⟨"dsymm",
              [ParamString params.Side, ParamString params.Uplo],
              [ind.M, ind.N], [aval, bval], [],
              [sA, sB, sC], [], [ind.LDa, ind.LDb, ind.LDc]⟩)
          | _, _, _ => .panicked
      | .cm _ =>
        let Aa := A.ComplexArray
        let Ba := B.ComplexArray
        let Ca := C.ComplexArray
        let avalE : Except String CplxV := match alpha with
          | .nil => .ok (some 1, some 0)
          | s =>
            let av := s.ComplexValue
            if cIsNaN av then .ok (s.FloatValue, some 0)
            else .error "alpha not a number"
        match avalE with
        | .error e => .err e
        | .ok aval =>
          let bvalE : Except String CplxV := match beta with
            | .nil => .ok (some 0, some 0)
            | s =>
              let bv := s.ComplexValue
              if cIsNaN bv then .ok (s.FloatValue, some 0)
              else .error "beta not a number"
          match bvalE with
          | .error e => .err e
          | .ok bval =>
            match sliceFrom Aa ind.OffsetA, sliceFrom Ba ind.OffsetB,
                  sliceFrom Ca ind.OffsetC with
            | some sA, some sB, some sC =>
              .done (some ⟨"zhemm",
                [ParamString params.Side, ParamString params.Uplo],
                [ind.M, ind.N], [], [aval, bval],
                [], [sA, sB, sC], [ind.LDa, ind.LDb, ind.LDc]⟩)
            | _, _, _ => .panicked

/-- `blas.Hemm` (src/blas/level3.go lines 245-248): delegates to `Symm` on
exactly the same arguments. -/
def Hemm (check : CheckFn) (A B C : Matrix) (alpha beta : Scalar)
    (params : Params) (opts : IndexOpts) : L3Out :=
  Symm check A B C alpha beta params opts

/-- `blas.Syrk` (src/blas/level3.go lines 286-350).  Note: unlike `Gemm` and
`Symm` there is no `m = 0` / `n = 0` early return — the type check, scalar
coercion, and kernel invocation run for every successfully checked call. -/
def Syrk (check : CheckFn) (A C : Matrix) (alpha beta : Scalar)
    (params : Params) (opts : IndexOpts) : L3Out :=
  match check opts .fsyrk A Option.none (some C) params with
  | .error e => .err e
  | .ok ind =>
    if ¬ EqualTypes2 A C then .err "Parameters not of same type"
    else
      match A with
      | .fm _ =>
        let Aa := A.FloatArray
        let Ca := C.FloatArray
        let aval : FloatV := match alpha with
          | .nil => some 1
          | s => s.FloatValue
        let bval : FloatV := match beta with
          | .nil => some 0
          | s => s.FloatValue
        if fIsNaN aval || fIsNaN bval then .err "alpha or beta not a number"
        else
          match sliceFrom Aa ind.OffsetA, sliceFrom Ca ind.OffsetC with
          | some sA, some sC =>
            .done (some ⟨"dsyrk",
              [ParamString params.Uplo, ParamString params.Trans],
              [ind.N, ind.K], [aval, bval], [],
              [sA, sC], [], [ind.LDa, ind.LDc]⟩)
          | _, _ => .panicked
      | .cm _ =>
        let Aa := A.ComplexArray
        let Ca := C.ComplexArray
        let avalE : Except String CplxV := match alpha with
          | .nil => .ok (some 1, some 0)
          | s =>
            let av := s.ComplexValue
            if cIsNaN av then .ok (s.FloatValue, some 0)
            else .error "alpha not a number"
        match avalE with
        | .error e => .err e
        | .ok aval =>
          let bvalE : Except String CplxV := match beta with
            | .nil => .ok (some 0, some 0)
            | s =>
              let bv := s.ComplexValue
              if cIsNaN bv then .ok (s.FloatValue, some 0)
              else .error "beta not a number"
          match bvalE with
          | .error e => .err e
          | .ok bval =>
            match sliceFrom Aa ind.OffsetA, sliceFrom Ca ind.OffsetC with
            | some sA, some sC =>
              .done (some ⟨"zsyrk",
                [ParamString params.Uplo, ParamString params.Trans],
                [ind.N, ind.K], [], [aval, bval],
                [], [sA, sC], [ind.LDa, ind.LDc]⟩)
            | _, _ => .panicked

/-- `blas.Syr2k` (src/blas/level3.go lines 500-570).  No zero-dimension early
return; its complex scalar branches carry the double NaN probe (complex value,
then float fallback, then error) — the one entry point whose complex
coercion is not inverted. -/
def Syr2k (check : CheckFn) (A B C : Matrix) (alpha beta : Scalar)
    (params : Params) (opts : IndexOpts) : L3Out :=
  match check opts .fsyr2k A (some B) (some C) params with
  | .error e => .err e
  | .ok ind =>
    if ¬ EqualTypes3 A B C then .err "Parameters not of same type"
    else
      match A with
      | .fm _ =>
        let Aa := A.FloatArray
        let Ba := B.FloatArray
        let Ca := C.FloatArray
        let aval : FloatV := match alpha with
          | .nil => some 1
          | s => s.FloatValue
        let bval : FloatV := match beta with
          | .nil => some 0
          | s => s.FloatValue
        if fIsNaN aval || fIsNaN bval then .err "alpha or beta not a number"
        else
          match sliceFrom Aa ind.OffsetA, sliceFrom Ba ind.OffsetB,
                sliceFrom Ca ind.OffsetC with
          | some sA, some sB, some sC =>
            .done (some ⟨"dsyr2k",
              [ParamString params.Uplo, ParamString params.Trans],
              [ind.N, ind.K], [aval, bval], [],
              [sA, sB, sC], [], [ind.LDa, ind.LDb, ind.LDc]⟩)
          | _, _, _ => .panicked
      | .cm _ =>
        let Aa := A.ComplexArray
        let Ba := B.ComplexArray
        let Ca := C.ComplexArray
        let avalE : Except String CplxV := match alpha with
          | .nil => .ok (some 1, some 0)
          | s =>
            let av := s.ComplexValue
            if cIsNaN av then
              if ¬ fIsNaN s.FloatValue then .ok (s.FloatValue, some 0)
              else .error "alpha not a real or complex number"
            else .ok av
        match avalE with
        | .error e => .err e
        | .ok aval =>
          let bvalE : Except String CplxV := match beta with
            | .nil => .ok (some 0, some 0)
            | s =>
              let bv := s.ComplexValue
              if cIsNaN bv then
                if ¬ fIsNaN s.FloatValue then .ok (s.FloatValue, some 0)
                else .error "beta not a real or complex number"
              else .ok bv
          match bvalE with
          | .error e => .err e
          | .ok bval =>
            match sliceFrom Aa ind.OffsetA, sliceFrom Ba ind.OffsetB,
                  sliceFrom Ca ind.OffsetC with
            | some sA, some sB, some sC =>
              .done (some ⟨"zsyr2k",
                [ParamString params.Uplo, ParamString params.Trans],
                [ind.N, ind.K], [], [aval, bval],
                [], [sA, sB, sC], [ind.LDa, ind.LDb, ind.LDc]⟩)
            | _, _, _ => .panicked

/-- `blas.Trmm` (src/blas/level3.go lines 725-779).  No zero-dimension early
return; a nil alpha defaults to 1 in both paths. -/
def Trmm (check : CheckFn) (A B : Matrix) (alpha : Scalar)
    (params : Params) (opts : IndexOpts) : L3Out :=
  match check opts .ftrmm A (some B) Option.none params with
  | .error e => .err e
  | .ok ind =>
    if ¬ EqualTypes2 A B then .err "Parameters not of same type"
    else
      match A with
      | .fm _ =>
        let Aa := A.FloatArray
        let Ba := B.FloatArray
        let aval : FloatV := match alpha with
          | .nil => some 1
          | s => s.FloatValue
        if fIsNaN aval then .err "alpha  not a number"
        else
          match sliceFrom Aa ind.OffsetA, sliceFrom Ba ind.OffsetB with
          | some sA, some sB =>
            .done (some ⟨"dtrmm",
              [ParamString params.Side, ParamString params.Uplo,
               ParamString params.TransA, ParamString params.Diag],
              [ind.M, ind.N], [aval], [],
              [sA, sB], [], [ind.LDa, ind.LDb]⟩)
          | _, _ => .panicked
      | .cm _ =>
        let Aa := A.ComplexArray
        let Ba := B.ComplexArray
        let avalE : Except String CplxV := match alpha with
          | .nil => .ok (some 1, some 0)
          | s =>
            let av := s.ComplexValue
            if cIsNaN av then .ok (s.FloatValue, some 0)
            else .error "alpha  not a number"
        match avalE with
        | .error e => .err e
        | .ok aval =>
          match sliceFrom Aa ind.OffsetA, sliceFrom Ba ind.OffsetB with
          | some sA, some sB =>
            .done (some ⟨"ztrmm",
              [ParamString params.Side, ParamString params.Uplo,
               ParamString params.TransA, ParamString params.Diag],
              [ind.M, ind.N], [], [aval],
              [], [sA, sB], [ind.LDa, ind.LDb]⟩)
          | _, _ => .panicked

/-- `blas.Trsm` (src/blas/level3.go lines 822-873).  In the real path the
source reads `alpha.FloatValue()` without a nil check (line 841), so a call
with real operands and an absent alpha dereferences a nil interface — a Go
runtime panic; the complex path checks for nil and defaults alpha to 1. -/
def Trsm (check : CheckFn) (A B : Matrix) (alpha : Scalar)
    (params : Params) (opts : IndexOpts) : L3Out :=
  match check opts .ftrsm A (some B) Option.none params with
  | .error e => .err e
  | .ok ind =>
    if ¬ EqualTypes2 A B then .err "Parameters not of same type"
    else
      match A with
      | .fm _ =>
        match alpha with
        | .nil => .panicked
        | a =>
          let Aa := A.FloatArray
          let Ba := B.FloatArray
          let aval := a.FloatValue
          if fIsNaN aval then .err "alpha or beta not a number"
          else
            match sliceFrom Aa ind.OffsetA, sliceFrom Ba ind.OffsetB with
            | some sA, some sB =>
              .done (some ⟨"dtrsm",
                [ParamString params.Side, ParamString params.Uplo,
                 ParamString params.TransA, ParamString params.Diag],
                [ind.M, ind.N], [aval], [],
                [sA, sB], [], [ind.LDa, ind.LDb]⟩)
            | _, _ => .panicked
      | .cm _ =>
        let Aa := A.ComplexArray
        let Ba := B.ComplexArray
        let avalE : Except String CplxV := match alpha with
          | .nil => .ok (some 1, some 0)
          | s =>
            let av := s.ComplexValue
            if cIsNaN av then .ok (s.FloatValue, some 0)
            else .error "alpha  not a number"
        match avalE with
        | .error e => .err e
        | .ok aval =>
          match sliceFrom Aa ind.OffsetA, sliceFrom Ba ind.OffsetB with
          | some sA, some sB =>
            .done (some ⟨"ztrsm",
              [ParamString params.Side, ParamString params.Uplo,
               ParamString params.TransA, ParamString params.Diag],
              [ind.M, ind.N], [], [aval],
              [], [sA, sB], [ind.LDa, ind.LDb]⟩)
          | _, _ => .panicked

/-- `Gesv` dimension resolution for `n` (src/lapack/gesv.go lines 47-52): a
negative `n` option defaults to `A.Rows()` and then `A` must be square. -/
def resolveN (A : Matrix) (op : IndexOpts) : Except String Int :=
  if op.N < 0 then
    if (A.Rows : Int) ≠ (A.Cols : Int) then .error "Gesv: A not square"
    else .ok (A.Rows : Int)
  else .ok op.N

/-- `Gesv` dimension resolution for `nrhs` (src/lapack/gesv.go lines 53-55):
a negative `nrhs` option defaults to `B.Cols()`. -/
def resolveNrhs (B : Matrix) (op : IndexOpts) : Int :=
  if op.Nrhs < 0 then (B.Cols : Int) else op.Nrhs

/-- Result of `Gesv`'s resolution and validation stage: an error, the
zero-dimension early success, or the resolved configuration handed to the
dispatch stage. -/
inductive ResolveOut where
  | err (msg : String)
  | early
  | cfg (n nrhs lda ldb arows brows : Int)
deriving DecidableEq

/-- Leading-stride resolution for one operand (src/lapack/gesv.go lines
59-62 and 66-69): an explicit nonzero `ld` option is used as given; the zero
sentinel resolves to `max(1, LeadingIndex)`. -/
def ldResolve (ld : Int) (li : Nat) : Int :=
  if ld = 0 then max 1 (li : Int) else ld

/-- The per-operand row stride used by the storage-size checks (`arows` /
`brows` in the source): the explicit `ld` option when one was given, else
`max(1, Rows)`. -/
def rowsResolve (ld : Int) (rows : Nat) : Int :=
  if ld = 0 then max 1 (rows : Int) else ld

/-- The permutation-length check (src/lapack/gesv.go line 87):
`ipiv != nil && len(ipiv) < n`. -/
def ipivShort (ipiv : Option (List Int)) (N : Int) : Bool :=
  match ipiv with
  | some l => decide ((l.length : Int) < N)
  | Option.none => false

/-- The resolution and validation prefix of `lapack.Gesv`
(src/lapack/gesv.go lines 44-92), translated check for check in source
order: resolve `n` (with the squareness test) and `nrhs`, the zero-dimension
early return, stride resolution and checks for `ldA` then `ldB`, offset
checks, storage-size checks, the permutation-length check, and the operand
type check. -/
def gesvResolve (A B : Matrix) (ipiv : Option (List Int))
    (op : IndexOpts) : ResolveOut :=
  match resolveN A op with
  | .error m => .err m
  | .ok N =>
    let Nrhs := resolveNrhs B op
    if N = 0 ∨ Nrhs = 0 then .early
    else
      let LDa := ldResolve op.LDa A.LeadingIndex
      let arows := rowsResolve op.LDa A.Rows
      if LDa < max 1 N then .err "Gesv: ldA"
      else
        let LDb := ldResolve op.LDb B.LeadingIndex
        let brows := rowsResolve op.LDb B.Rows
        if LDb < max 1 N then .err "Gesv: ldB"
        else if op.OffsetA < 0 then .err "Gesv: offsetA"
        else if op.OffsetB < 0 then .err "Gesv: offsetB"
        else if (A.NumElements : Int) < op.OffsetA + (N - 1) * arows + N then
          .err "Gesv: sizeA"
        else if (B.NumElements : Int) < op.OffsetB + (Nrhs - 1) * brows + N then
          .err "Gesv: sizeB"
        else if ipivShort ipiv N then .err "Gesv: size ipiv"
        else if ¬ EqualTypes2 A B then .err "Gesv: arguments not of same type"
        else .cfg N Nrhs LDa LDb arows brows

/-- Signature of the `dgesv` / `zgesv` kernels: the layer passes
`(n, nrhs, A-slice, ldA, ipiv, B-slice, ldB)`; the kernel mutates the three
buffers in place and returns a status, modelled as returning
`(A-slice, ipiv, B-slice, info)`.  The kernels are external to the layer, so
`Gesv` is parameterized by them. -/
abbrev KernelF (α : Type) :=
  Int → Int → List α → Int → List Int → List α → Int →
    List α × List Int × List α × Int

/-- In-place mutation of the segment of `orig` that a Go slice starting at
`off` aliases: the kernel's output `seg` replaces `seg.length` elements of
`orig` from position `off`. -/
def updSeg {α : Type} (orig : List α) (off : Int) (seg : List α) : List α :=
  orig.take off.toNat ++ seg ++ orig.drop (off.toNat + seg.length)

instance {ε α : Type} [DecidableEq ε] [DecidableEq α] :
    DecidableEq (Except ε α) := fun x y =>
  match x, y with
  | .ok a, .ok b =>
    if h : a = b then isTrue (by rw [h]) else isFalse (by simp [h])
  | .error a, .error b =>
    if h : a = b then isTrue (by rw [h]) else isFalse (by simp [h])
  | .ok _, .error _ => isFalse (by simp)
  | .error _, .ok _ => isFalse (by simp)

/-- Caller-visible outcome of a `Gesv` call: the returned error value, the
caller's two operands after the call, the contents of the caller's
permutation buffer after the call (`none` when the caller supplied none), and
whether a kernel entry point was invoked. -/
structure GesvRes where
  res : Except String Unit
  A : Matrix
  B : Matrix
  ipiv : Option (List Int)
  called : Bool
deriving DecidableEq

/-- A `Gesv` call either panics (out-of-range slice expression) or produces a
caller-visible outcome. -/
inductive GesvOut where
  | panicked
  | ok (r : GesvRes)
deriving DecidableEq

/-- `lapack.Gesv` (src/lapack/gesv.go lines 42-121), parameterized by the two
kernels.  After validation: when `ipiv` is nil a fresh length-`n` buffer is
allocated and `A` is replaced by a private copy (so the caller's `A` is
returned unchanged and the pivots are not exposed); the dispatch slices
`A`'s array from `offsetA` and re-slices it to `ldA*ldB` elements — exactly
as the source does — then calls the kernel and maps a nonzero status to a
kernel error. -/
def Gesv (dgesv : KernelF FloatV) (zgesv : KernelF CplxV)
    (A B : Matrix) (ipiv : Option (List Int)) (op : IndexOpts) : GesvOut :=
  match gesvResolve A B ipiv op with
  | .err m => .ok ⟨.error m, A, B, ipiv, false⟩
  | .early => .ok ⟨.ok (), A, B, ipiv, false⟩
  | .cfg N Nrhs LDa LDb _ _ =>
    let ipivLoc := match ipiv with
      | some l => l
      | Option.none => List.replicate N.toNat 0
    let copied := ipiv.isNone
    let Acur := if copied then A.MakeCopy else A
    match Acur, B with
    | .fm Am, .fm Bm =>
      match sliceFrom Am.data op.OffsetA with
      | Option.none => .panicked
      | some Aa0 =>
        match sliceTo Aa0 (LDa * LDb) with
        | Option.none => .panicked
        | some Aa =>
          match sliceFrom Bm.data op.OffsetB with
          | Option.none => .panicked
          | some Ba =>
            let out := dgesv N Nrhs Aa LDa ipivLoc Ba LDb
            let Afin := if copied then A
              else Matrix.fm ⟨Am.rows, Am.cols, updSeg Am.data op.OffsetA out.1⟩
            let Bfin := Matrix.fm ⟨Bm.rows, Bm.cols,
              updSeg Bm.data op.OffsetB out.2.2.1⟩
            let ipivFin := if copied then ipiv else some out.2.1
            let res : Except String Unit :=
              if out.2.2.2 ≠ 0 then
                .error ("Gesv: lapack error: " ++ toString out.2.2.2)
              else .ok ()
            .ok ⟨res, Afin, Bfin, ipivFin, true⟩
    | .cm Am, .cm Bm =>
      match sliceFrom Am.data op.OffsetA with
      | Option.none => .panicked
      | some Aa0 =>
        match sliceTo Aa0 (LDa * LDb) with
        | Option.none => .panicked
        | some Aa =>
          match sliceFrom Bm.data op.OffsetB with
          | Option.none => .panicked
          | some Ba =>
            let out := zgesv N Nrhs Aa LDa ipivLoc Ba LDb
            let Afin := if copied then A
              else Matrix.cm ⟨Am.rows, Am.cols, updSeg Am.data op.OffsetA out.1⟩
            let Bfin := Matrix.cm ⟨Bm.rows, Bm.cols,
              updSeg Bm.data op.OffsetB out.2.2.1⟩
            let ipivFin := if copied then ipiv else some out.2.1
            let res : Except String Unit :=
              if out.2.2.2 ≠ 0 then
                .error ("Gesv: lapack error: " ++ toString out.2.2.2)
              else .ok ()
            .ok ⟨res, Afin, Bfin, ipivFin, true⟩
    | _, _ => .panicked

/-! Concrete fixtures used by counterexamples and witnesses. -/

/-- Default mode flags. -/
def prm0 : Params := ⟨.noTrans, .noTrans, .noTrans, .left, .lower, .nonUnit⟩

/-- A real 1-by-1 operand. -/
def fm11 : Matrix := .fm ⟨1, 1, [some 1]⟩

/-- A complex 1-by-1 operand. -/
def cm11 : Matrix := .cm ⟨1, 1, [(some 1, some 0)]⟩

/-- Options resolved to m = n = k = 1, unit strides, zero offsets. -/
def opMNK1 : IndexOpts := ⟨1, 1, 1, -1, 1, 1, 1, 0, 0, 0⟩

/-- Options resolved to n = 0 (and k = 0) for the rank-update families. -/
def opN0 : IndexOpts := ⟨-1, 0, 0, -1, 1, 1, 1, 0, 0, 0⟩

/-- Options resolved to m = 0, n = k = 1. -/
def opM0 : IndexOpts := ⟨0, 1, 1, -1, 1, 1, 1, 0, 0, 0⟩

/-- A trivial real `dgesv` kernel: returns its buffers unchanged, status 0. -/
def dT : KernelF FloatV := fun _ _ Aa _ ip Ba _ => (Aa, ip, Ba, 0)

/-- A trivial complex `zgesv` kernel: returns its buffers unchanged, status 0. -/
def zT : KernelF CplxV := fun _ _ Aa _ ip Ba _ => (Aa, ip, Ba, 0)

/-- A real `dgesv` kernel that overwrites every element it is handed, to make
mutation observable. -/
def dW : KernelF FloatV := fun _ _ Aa _ ip Ba _ =>
  (Aa.map (fun _ => some 9), ip.map (fun _ => 7), Ba.map (fun _ => some 1), 0)

/-- 1-by-1 real system matrix for the reslice overrun input. -/
def gA4 : Matrix := .fm ⟨1, 1, [some 2]⟩

/-- Right-hand side stored with leading stride 5 in a 5-element buffer. -/
def gB4 : Matrix := .fm ⟨5, 1, [some 3, some 0, some 0, some 0, some 0]⟩

/-- Options for the reslice overrun input: everything default except an
explicit `ldB = 5`. -/
def gop4 : IndexOpts := ⟨-1, -1, -1, -1, 0, 5, 0, 0, 0, 0⟩

/-- A real 2-by-2 system matrix. -/
def gA2 : Matrix := .fm ⟨2, 2, [some 2, some 1, some 1, some 1]⟩

/-- A 2-by-0 right-hand side (zero columns, so `nrhs` resolves to 0). -/
def gB20 : Matrix := .fm ⟨2, 0, []⟩

/-- A 2-by-1 right-hand side. -/
def gB21 : Matrix := .fm ⟨2, 1, [some 3, some 2]⟩

/-- Options with explicit `n = 2` and `ldA = 1 = n - 1`, `nrhs` unset. -/
def gop8 : IndexOpts := ⟨-1, 2, -1, -1, 1, 2, 0, 0, 0, 0⟩

/-- The fully explicit option set that `Gesv` resolves an all-unset call to,
for operands `A` and `B`: `n = A.Rows`, `nrhs = B.Cols`,
`ldA = max(1, A.LeadingIndex)`, `ldB = max(1, B.LeadingIndex)`, offsets 0. -/
def explicitOpts (A B : Matrix) : IndexOpts :=
  ⟨-1, (A.Rows : Int), -1, (B.Cols : Int), max 1 (A.LeadingIndex : Int),
   max 1 (B.LeadingIndex : Int), 0, 0, 0, 0⟩

/-- Options resolved to m = n = 1 and inner dimension k = 0. -/
def opK0 : IndexOpts := ⟨1, 1, 0, -1, 1, 1, 1, 0, 0, 0⟩

/-- Options with explicit `n = 0` and otherwise invalid stride and offsets
(used to show the zero-dimension early return skips every later check). -/
def gop10 : IndexOpts := ⟨-1, 0, -1, 3, -7, -9, 0, -4, -2, 0⟩

/-- Options with explicit `n = 2`, `nrhs = 1` and an explicit `ldA = 1`. -/
def gopLdA1 : IndexOpts := ⟨-1, 2, -1, 1, 1, 2, 0, 0, 0, 0⟩

/-- Options with explicit `n = 2`, `nrhs = 1` and an explicit `ldA = 2`. -/
def gopLdA2 : IndexOpts := ⟨-1, 2, -1, 1, 2, 2, 0, 0, 0, 0⟩

/-! Helper lemmas shared by the claim theorems. -/

theorem Gemm_zero_dim (check : CheckFn) (A B C : Matrix) (alpha beta : Scalar)
    (params : Params) (opts ind : IndexOpts)
    (hc : check opts .fgemm A (some B) (some C) params = Except.ok ind)
    (h0 : ind.M = 0 ∨ ind.N = 0) :
    Gemm check A B C alpha beta params opts = L3Out.done Option.none := by
  unfold Gemm
  rw [hc]
  simp [h0]

theorem Symm_zero_dim (check : CheckFn) (A B C : Matrix) (alpha beta : Scalar)
    (params : Params) (opts ind : IndexOpts)
    (hc : check opts .fsymm A (some B) (some C) params = Except.ok ind)
    (h0 : ind.M = 0 ∨ ind.N = 0) :
    Symm check A B C alpha beta params opts = L3Out.done Option.none := by
  unfold Symm
  rw [hc]
  simp [h0]

theorem Gemm_mixed_err (check : CheckFn) (A B C : Matrix) (alpha beta : Scalar)
    (params : Params) (opts ind : IndexOpts)
    (hc : check opts .fgemm A (some B) (some C) params = Except.ok ind)
    (hM : ind.M ≠ 0) (hN : ind.N ≠ 0) (hmix : EqualTypes3 A B C = false) :
    Gemm check A B C alpha beta params opts
      = L3Out.err "Parameters not of same type" := by
  unfold Gemm
  rw [hc]
  have h0 : ¬ (ind.M = 0 ∨ ind.N = 0) := by tauto
  simp [h0, hmix]

theorem Symm_mixed_err (check : CheckFn) (A B C : Matrix) (alpha beta : Scalar)
    (params : Params) (opts ind : IndexOpts)
    (hc : check opts .fsymm A (some B) (some C) params = Except.ok ind)
    (hM : ind.M ≠ 0) (hN : ind.N ≠ 0) (hmix : EqualTypes3 A B C = false) :
    Symm check A B C alpha beta params opts
      = L3Out.err "Parameters not of same type" := by
  unfold Symm
  rw [hc]
  have h0 : ¬ (ind.M = 0 ∨ ind.N = 0) := by tauto
  simp [h0, hmix]

theorem Syrk_mixed_err (check : CheckFn) (A C : Matrix) (alpha beta : Scalar)
    (params : Params) (opts ind : IndexOpts)
    (hc : check opts .fsyrk A Option.none (some C) params = Except.ok ind)
    (hmix : EqualTypes2 A C = false) :
    Syrk check A C alpha beta params opts
      = L3Out.err "Parameters not of same type" := by
  unfold Syrk
  rw [hc]
  simp [hmix]

theorem Syr2k_mixed_err (check : CheckFn) (A B C : Matrix) (alpha beta : Scalar)
    (params : Params) (opts ind : IndexOpts)
    (hc : check opts .fsyr2k A (some B) (some C) params = Except.ok ind)
    (hmix : EqualTypes3 A B C = false) :
    Syr2k check A B C alpha beta params opts
      = L3Out.err "Parameters not of same type" := by
  unfold Syr2k
  rw [hc]
  simp [hmix]

theorem Trmm_mixed_err (check : CheckFn) (A B : Matrix) (alpha : Scalar)
    (params : Params) (opts ind : IndexOpts)
    (hc : check opts .ftrmm A (some B) Option.none params = Except.ok ind)
    (hmix : EqualTypes2 A B = false) :
    Trmm check A B alpha params opts
      = L3Out.err "Parameters not of same type" := by
  unfold Trmm
  rw [hc]
  simp [hmix]

theorem Trsm_mixed_err (check : CheckFn) (A B : Matrix) (alpha : Scalar)
    (params : Params) (opts ind : IndexOpts)
    (hc : check opts .ftrsm A (some B) Option.none params = Except.ok ind)
    (hmix : EqualTypes2 A B = false) :
    Trsm check A B alpha params opts
      = L3Out.err "Parameters not of same type" := by
  unfold Trsm
  rw [hc]
  simp [hmix]

theorem Syrk_ne_noop (check : CheckFn) (A C : Matrix) (alpha beta : Scalar)
    (params : Params) (opts : IndexOpts) :
    Syrk check A C alpha beta params opts ≠ L3Out.done Option.none := by
  intro h
  unfold Syrk at h
  rcases hcheck : check opts .fsyrk A Option.none (some C) params with e | ind <;>
    rw [hcheck] at h
  · exact absurd h (by simp)
  · cases A <;> cases C <;> cases alpha <;> cases beta <;>
      (try dsimp only at h) <;> (repeat' split at h) <;> simp at h

theorem Syr2k_ne_noop (check : CheckFn) (A B C : Matrix) (alpha beta : Scalar)
    (params : Params) (opts : IndexOpts) :
    Syr2k check A B C alpha beta params opts ≠ L3Out.done Option.none := by
  intro h
  unfold Syr2k at h
  rcases hcheck : check opts .fsyr2k A (some B) (some C) params with e | ind <;>
    rw [hcheck] at h
  · exact absurd h (by simp)
  · cases A <;> cases B <;> cases C <;> cases alpha <;> cases beta <;>
      (try dsimp only at h) <;> (repeat' split at h) <;> simp at h

theorem Trmm_ne_noop (check : CheckFn) (A B : Matrix) (alpha : Scalar)
    (params : Params) (opts : IndexOpts) :
    Trmm check A B alpha params opts ≠ L3Out.done Option.none := by
  intro h
  unfold Trmm at h
  rcases hcheck : check opts .ftrmm A (some B) Option.none params with e | ind <;>
    rw [hcheck] at h
  · exact absurd h (by simp)
  · cases A <;> cases B <;> cases alpha <;>
      (try dsimp only at h) <;> (repeat' split at h) <;> simp at h

theorem Trsm_ne_noop (check : CheckFn) (A B : Matrix) (alpha : Scalar)
    (params : Params) (opts : IndexOpts) :
    Trsm check A B alpha params opts ≠ L3Out.done Option.none := by
  intro h
  unfold Trsm at h
  rcases hcheck : check opts .ftrsm A (some B) Option.none params with e | ind <;>
    rw [hcheck] at h
  · exact absurd h (by simp)
  · cases A <;> cases B <;> cases alpha <;>
      (try dsimp only at h) <;> (repeat' split at h) <;> simp at h

theorem Gemm_dispatch_real (check : CheckFn) (Am Bm Cm : MatData FloatV)
    (a b : ℚ) (params : Params) (opts ind : IndexOpts)
    (hc : check opts .fgemm (.fm Am) (some (.fm Bm)) (some (.fm Cm)) params
        = Except.ok ind)
    (hM : ind.M ≠ 0) (hN : ind.N ≠ 0)
    (hA0 : 0 ≤ ind.OffsetA) (hA1 : ind.OffsetA ≤ (Am.data.length : Int))
    (hB0 : 0 ≤ ind.OffsetB) (hB1 : ind.OffsetB ≤ (Bm.data.length : Int))
    (hC0 : 0 ≤ ind.OffsetC) (hC1 : ind.OffsetC ≤ (Cm.data.length : Int)) :
    Gemm check (.fm Am) (.fm Bm) (.fm Cm) (Scalar.real (some a))
        (Scalar.real (some b)) params opts
      = L3Out.done (some ⟨"dgemm",
          [ParamString params.TransA, ParamString params.TransB],
          [ind.M, ind.N, ind.K], [some a, some b], [],
          [Am.data.drop ind.OffsetA.toNat, Bm.data.drop ind.OffsetB.toNat,
           Cm.data.drop ind.OffsetC.toNat], [],
          [ind.LDa, ind.LDb, ind.LDc]⟩) := by
  unfold Gemm
  rw [hc]
  have h0 : ¬ (ind.M = 0 ∨ ind.N = 0) := by tauto
  simp [h0, EqualTypes3, sameType, Matrix.FloatArray, Scalar.FloatValue,
    fIsNaN, sliceFrom, hA0, hA1, hB0, hB1, hC0, hC1]

theorem Syrk_dispatch_real (check : CheckFn) (Am Cm : MatData FloatV)
    (a b : ℚ) (params : Params) (opts ind : IndexOpts)
    (hc : check opts .fsyrk (.fm Am) Option.none (some (.fm Cm)) params
        = Except.ok ind)
    (hA0 : 0 ≤ ind.OffsetA) (hA1 : ind.OffsetA ≤ (Am.data.length : Int))
    (hC0 : 0 ≤ ind.OffsetC) (hC1 : ind.OffsetC ≤ (Cm.data.length : Int)) :
    Syrk check (.fm Am) (.fm Cm) (Scalar.real (some a))
        (Scalar.real (some b)) params opts
      = L3Out.done (some ⟨"dsyrk",
          [ParamString params.Uplo, ParamString params.Trans],
          [ind.N, ind.K], [some a, some b], [],
          [Am.data.drop ind.OffsetA.toNat, Cm.data.drop ind.OffsetC.toNat], [],
          [ind.LDa, ind.LDc]⟩) := by
  unfold Syrk
  rw [hc]
  simp [EqualTypes2, sameType, Matrix.FloatArray, Scalar.FloatValue,
    fIsNaN, sliceFrom, hA0, hA1, hC0, hC1]

theorem Syr2k_dispatch_real (check : CheckFn) (Am Bm Cm : MatData FloatV)
    (a b : ℚ) (params : Params) (opts ind : IndexOpts)
    (hc : check opts .fsyr2k (.fm Am) (some (.fm Bm)) (some (.fm Cm)) params
        = Except.ok ind)
    (hA0 : 0 ≤ ind.OffsetA) (hA1 : ind.OffsetA ≤ (Am.data.length : Int))
    (hB0 : 0 ≤ ind.OffsetB) (hB1 : ind.OffsetB ≤ (Bm.data.length : Int))
    (hC0 : 0 ≤ ind.OffsetC) (hC1 : ind.OffsetC ≤ (Cm.data.length : Int)) :
    Syr2k check (.fm Am) (.fm Bm) (.fm Cm) (Scalar.real (some a))
        (Scalar.real (some b)) params opts
      = L3Out.done (some ⟨"dsyr2k",
          [ParamString params.Uplo, ParamString params.Trans],
          [ind.N, ind.K], [some a, some b], [],
          [Am.data.drop ind.OffsetA.toNat, Bm.data.drop ind.OffsetB.toNat,
           Cm.data.drop ind.OffsetC.toNat], [],
          [ind.LDa, ind.LDb, ind.LDc]⟩) := by
  unfold Syr2k
  rw [hc]
  simp [EqualTypes3, sameType, Matrix.FloatArray, Scalar.FloatValue,
    fIsNaN, sliceFrom, hA0, hA1, hB0, hB1, hC0, hC1]

theorem gesvResolve_mixed_ne_cfg (A B : Matrix) (ipiv : Option (List Int))
    (op : IndexOpts) (hmix : EqualTypes2 A B = false)
    (n nrhs lda ldb ar br : Int) :
    gesvResolve A B ipiv op ≠ ResolveOut.cfg n nrhs lda ldb ar br := by
  intro h
  unfold gesvResolve at h
  rcases hn : resolveN A op with e | N <;> rw [hn] at h
  · simp at h
  · try dsimp only at h
    repeat' split at h
    all_goals simp_all

theorem Gesv_mixed_no_kernel (dges : KernelF FloatV) (zges : KernelF CplxV)
    (A B : Matrix) (ipiv : Option (List Int)) (op : IndexOpts) (r : GesvRes)
    (hmix : EqualTypes2 A B = false)
    (h : Gesv dges zges A B ipiv op = GesvOut.ok r) :
    r.called = false ∧ r.A = A ∧ r.B = B := by
  unfold Gesv at h
  rcases hres : gesvResolve A B ipiv op with m | _ | ⟨n, nrhs, lda, ldb, ar, br⟩ <;>
    rw [hres] at h
  · injection h with h2
    subst h2
    exact ⟨rfl, rfl, rfl⟩
  · injection h with h2
    subst h2
    exact ⟨rfl, rfl, rfl⟩
  · exact absurd hres (gesvResolve_mixed_ne_cfg A B ipiv op hmix n nrhs lda ldb ar br)

/-! Claim theorems. -/

/-- C1.  The spec claims a NaN scalar (once coerced to the operands' domain)
fails before any kernel entry point, and a finitely-coercing scalar passes
coercion.  The complex path of `Gemm` does the opposite on both counts: with
complex operands, a real NaN alpha passes coercion and `zgemm` is invoked
with a NaN scalar, while a finite genuinely-complex alpha is rejected with
"alpha not a number". -/
theorem gemm_complex_scalar_coercion_bug :
    (match Gemm checkOk cm11 cm11 cm11 (Scalar.real Option.none) Scalar.nil
        prm0 opMNK1 with
      | L3Out.done (some c) => decide (c.name = "zgemm") && c.cscal.any cIsNaN
      | _ => false) = true ∧
    Gemm checkOk cm11 cm11 cm11 (Scalar.cplx (some 2, some 3)) Scalar.nil
        prm0 opMNK1 = L3Out.err "alpha not a number" := by
  decide

/-- C4.  After every validation check passes (`n = 1`, `nrhs = 1`,
`ldA = 1`, explicit `ldB = 5`, `sizeA = 1 ≥ offsetA + (n-1)·arows + n`,
`sizeB = 5`), `Gesv` re-slices `A`'s 1-element array to `ldA·ldB = 5`
elements, overrunning its capacity: a Go out-of-range panic, refuting
"validation success implies no out-of-range access". -/
theorem gesv_reslice_out_of_range_bug :
    gesvResolve gA4 gB4 Option.none gop4 = ResolveOut.cfg 1 1 1 5 1 5 ∧
    Gesv dT zT gA4 gB4 Option.none gop4 = GesvOut.panicked := by
  decide

/-- C5.  The spec claims an absent alpha defaults to the multiplicative
identity in every family, real and complex paths alike.  `Trsm`'s real path
reads `alpha.FloatValue()` without a nil check, so a call with real operands
and alpha omitted dereferences a nil interface (runtime panic), while the
complex path of the same entry point defaults a nil alpha to 1 as documented. -/
theorem trsm_nil_alpha_panics_bug :
    Trsm checkOk fm11 fm11 Scalar.nil prm0 opMNK1 = L3Out.panicked ∧
    (match Trsm checkOk cm11 cm11 Scalar.nil prm0 opMNK1 with
      | L3Out.done (some c) => decide (c.cscal = [(some 1, some 0)])
      | _ => false) = true := by
  decide

/-- C2 counterexample.  A `Syrk` call whose resolved `n` is 0 does not
return before the kernel: `dsyrk` is invoked (with n = 0), refuting "the
call returns success without invoking any kernel entry point" for the rank-k
update family. -/
theorem syrk_zero_n_invokes_kernel_cx :
    (match Syrk checkOk fm11 fm11 Scalar.nil Scalar.nil prm0 opN0 with
      | L3Out.done (some c) => decide (c.name = "dsyrk") && decide (c.dims = [0, 0])
      | _ => false) = true ∧
    Syrk checkOk fm11 fm11 Scalar.nil Scalar.nil prm0 opN0
      ≠ L3Out.done Option.none := by
  decide

/-- C3 counterexample.  A `Gemm` call with one real and one complex operand
and resolved m = 0 returns success (the zero-dimension early return precedes
the type check), refuting "fails with a domain error ... including
configurations where a resolved dimension is zero". -/
theorem gemm_mixed_types_zero_dim_success_cx :
    Gemm checkOk fm11 cm11 fm11 Scalar.nil Scalar.nil prm0 opM0
      = L3Out.done Option.none := by
  decide

/-- C8 counterexample.  With resolved `n = 2 > 1` but `nrhs` resolving to 0
(B has zero columns), an explicitly supplied `ldA = 1 = n - 1` is not
rejected: the zero-dimension early return fires before the stride check and
the call reports success. -/
theorem gesv_ldA_nMinus1_accepted_when_nrhs_zero_cx :
    gesvResolve gA2 gB20 Option.none gop8 = ResolveOut.early ∧
    Gesv dT zT gA2 gB20 Option.none gop8
      = GesvOut.ok ⟨Except.ok (), gA2, gB20, Option.none, false⟩ := by
  decide

/-- C9.  `Hemm` delegates to `Symm` on identical arguments: the two entry
points are extensionally equal, so in the complex domain both dispatch to the
Hermitian kernel `zhemm` and no separate symmetric complex path exists
through `Hemm`. -/
theorem hemm_eq_symm (check : CheckFn) (A B C : Matrix) (alpha beta : Scalar)
    (params : Params) (opts : IndexOpts) :
    Hemm check A B C alpha beta params opts
      = Symm check A B C alpha beta params opts := rfl

/-- C2 (amended).  A resolved m = 0 or n = 0 short-circuits only `Gemm` and
`Symm`, which return success with no kernel invocation; `Syrk`, `Syr2k`,
`Trmm` and `Trsm` have no such early return — they never produce a
kernel-free success, so their zero-dimension calls still dispatch to the
kernel.  When the resolved inner dimension k is 0 with m, n nonzero, `Gemm`,
`Syrk` and `Syr2k` invoke the kernel with k = 0 and the coerced beta,
delegating the beta-scaling contract to it (real path shown). -/
theorem product_zero_dim_noop_amended :
    (∀ (check : CheckFn) (A B C : Matrix) (alpha beta : Scalar)
        (params : Params) (opts ind : IndexOpts),
        check opts .fgemm A (some B) (some C) params = Except.ok ind →
        ind.M = 0 ∨ ind.N = 0 →
        Gemm check A B C alpha beta params opts = L3Out.done Option.none) ∧
    (∀ (check : CheckFn) (A B C : Matrix) (alpha beta : Scalar)
        (params : Params) (opts ind : IndexOpts),
        check opts .fsymm A (some B) (some C) params = Except.ok ind →
        ind.M = 0 ∨ ind.N = 0 →
        Symm check A B C alpha beta params opts = L3Out.done Option.none) ∧
    (∀ (check : CheckFn) (A C : Matrix) (alpha beta : Scalar)
        (params : Params) (opts : IndexOpts),
        Syrk check A C alpha beta params opts ≠ L3Out.done Option.none) ∧
    (∀ (check : CheckFn) (A B C : Matrix) (alpha beta : Scalar)
        (params : Params) (opts : IndexOpts),
        Syr2k check A B C alpha beta params opts ≠ L3Out.done Option.none) ∧
    (∀ (check : CheckFn) (A B : Matrix) (alpha : Scalar)
        (params : Params) (opts : IndexOpts),
        Trmm check A B alpha params opts ≠ L3Out.done Option.none) ∧
    (∀ (check : CheckFn) (A B : Matrix) (alpha : Scalar)
        (params : Params) (opts : IndexOpts),
        Trsm check A B alpha params opts ≠ L3Out.done Option.none) ∧
    (∀ (check : CheckFn) (Am Bm Cm : MatData FloatV) (a b : ℚ)
        (params : Params) (opts ind : IndexOpts),
        check opts .fgemm (.fm Am) (some (.fm Bm)) (some (.fm Cm)) params
            = Except.ok ind →
        ind.M ≠ 0 → ind.N ≠ 0 → ind.K = 0 →
        0 ≤ ind.OffsetA → ind.OffsetA ≤ (Am.data.length : Int) →
        0 ≤ ind.OffsetB → ind.OffsetB ≤ (Bm.data.length : Int) →
        0 ≤ ind.OffsetC → ind.OffsetC ≤ (Cm.data.length : Int) →
        Gemm check (.fm Am) (.fm Bm) (.fm Cm) (Scalar.real (some a))
            (Scalar.real (some b)) params opts
          = L3Out.done (some ⟨"dgemm",
              [ParamString params.TransA, ParamString params.TransB],
              [ind.M, ind.N, 0], [some a, some b], [],
              [Am.data.drop ind.OffsetA.toNat, Bm.data.drop ind.OffsetB.toNat,
               Cm.data.drop ind.OffsetC.toNat], [],
              [ind.LDa, ind.LDb, ind.LDc]⟩)) ∧
    (∀ (check : CheckFn) (Am Cm : MatData FloatV) (a b : ℚ)
        (params : Params) (opts ind : IndexOpts),
        check opts .fsyrk (.fm Am) Option.none (some (.fm Cm)) params
            = Except.ok ind →
        ind.K = 0 →
        0 ≤ ind.OffsetA → ind.OffsetA ≤ (Am.data.length : Int) →
        0 ≤ ind.OffsetC → ind.OffsetC ≤ (Cm.data.length : Int) →
        Syrk check (.fm Am) (.fm Cm) (Scalar.real (some a))
            (Scalar.real (some b)) params opts
          = L3Out.done (some ⟨"dsyrk",
              [ParamString params.Uplo, ParamString params.Trans],
              [ind.N, 0], [some a, some b], [],
              [Am.data.drop ind.OffsetA.toNat, Cm.data.drop ind.OffsetC.toNat],
              [], [ind.LDa, ind.LDc]⟩)) ∧
    (∀ (check : CheckFn) (Am Bm Cm : MatData FloatV) (a b : ℚ)
        (params : Params) (opts ind : IndexOpts),
        check opts .fsyr2k (.fm Am) (some (.fm Bm)) (some (.fm Cm)) params
            = Except.ok ind →
        ind.K = 0 →
        0 ≤ ind.OffsetA → ind.OffsetA ≤ (Am.data.length : Int) →
        0 ≤ ind.OffsetB → ind.OffsetB ≤ (Bm.data.length : Int) →
        0 ≤ ind.OffsetC → ind.OffsetC ≤ (Cm.data.length : Int) →
        Syr2k check (.fm Am) (.fm Bm) (.fm Cm) (Scalar.real (some a))
            (Scalar.real (some b)) params opts
          = L3Out.done (some ⟨"dsyr2k",
              [ParamString params.Uplo, ParamString params.Trans],
              [ind.N, 0], [some a, some b], [],
              [Am.data.drop ind.OffsetA.toNat, Bm.data.drop ind.OffsetB.toNat,
               Cm.data.drop ind.OffsetC.toNat], [],
              [ind.LDa, ind.LDb, ind.LDc]⟩)) := by
  refine ⟨Gemm_zero_dim, Symm_zero_dim, Syrk_ne_noop, Syr2k_ne_noop,
    Trmm_ne_noop, Trsm_ne_noop, ?_, ?_, ?_⟩
  · intro check Am Bm Cm a b params opts ind hc hM hN hK hA0 hA1 hB0 hB1 hC0 hC1
    have h := Gemm_dispatch_real check Am Bm Cm a b params opts ind hc hM hN
      hA0 hA1 hB0 hB1 hC0 hC1
    rw [hK] at h
    exact h
  · intro check Am Cm a b params opts ind hc hK hA0 hA1 hC0 hC1
    have h := Syrk_dispatch_real check Am Cm a b params opts ind hc
      hA0 hA1 hC0 hC1
    rw [hK] at h
    exact h
  · intro check Am Bm Cm a b params opts ind hc hK hA0 hA1 hB0 hB1 hC0 hC1
    have h := Syr2k_dispatch_real check Am Bm Cm a b params opts ind hc
      hA0 hA1 hB0 hB1 hC0 hC1
    rw [hK] at h
    exact h

/-- Witness for C2: concrete zero-dimension `Gemm` no-op, concrete `Syrk`
with n = 0 that is not a kernel-free success, and a concrete k = 0 `Gemm`
dispatching to `dgemm` with k = 0 and beta = 2. -/
theorem product_zero_dim_noop_amended_witness :
    Gemm checkOk fm11 fm11 fm11 Scalar.nil Scalar.nil prm0 opM0
      = L3Out.done Option.none ∧
    Syrk checkOk fm11 fm11 Scalar.nil Scalar.nil prm0 opN0
      ≠ L3Out.done Option.none ∧
    Gemm checkOk (.fm ⟨1, 1, [some 1]⟩) (.fm ⟨1, 1, [some 1]⟩)
        (.fm ⟨1, 1, [some 1]⟩) (Scalar.real (some 1)) (Scalar.real (some 2))
        prm0 opK0
      = L3Out.done (some ⟨"dgemm",
          [ParamString prm0.TransA, ParamString prm0.TransB],
          [opK0.M, opK0.N, 0], [some 1, some 2], [],
          [[some 1], [some 1], [some 1]], [], [opK0.LDa, opK0.LDb, opK0.LDc]⟩) := by
  refine ⟨?_, ?_, ?_⟩
  · exact product_zero_dim_noop_amended.1 checkOk fm11 fm11 fm11
      Scalar.nil Scalar.nil prm0 opM0 opM0 rfl (Or.inl (by decide))
  · exact product_zero_dim_noop_amended.2.2.1 checkOk fm11 fm11
      Scalar.nil Scalar.nil prm0 opN0
  · exact product_zero_dim_noop_amended.2.2.2.2.2.2.1 checkOk
      ⟨1, 1, [some 1]⟩ ⟨1, 1, [some 1]⟩ ⟨1, 1, [some 1]⟩ 1 2 prm0 opK0 opK0
      rfl (by decide) (by decide) (by decide) (by decide) (by decide)
      (by decide) (by decide) (by decide) (by decide)

/-- C3 (amended).  Supplying one real and one complex operand fails with the
domain error "Parameters not of same type" and no kernel is invoked —
except that in `Gemm` and `Symm` a resolved m = 0 or n = 0 returns success
(without error and without a kernel) before the type check, and in `Gesv` a
mixed call never reaches the kernel but its zero-dimension early return
likewise precedes the type check.  `Syrk`, `Syr2k`, `Trmm` and `Trsm` reject
mixed operands for every checked option set. -/
theorem mixed_domain_rejected_amended :
    (∀ (check : CheckFn) (A B C : Matrix) (alpha beta : Scalar)
        (params : Params) (opts ind : IndexOpts),
        check opts .fgemm A (some B) (some C) params = Except.ok ind →
        ind.M ≠ 0 → ind.N ≠ 0 → EqualTypes3 A B C = false →
        Gemm check A B C alpha beta params opts
          = L3Out.err "Parameters not of same type") ∧
    (∀ (check : CheckFn) (A B C : Matrix) (alpha beta : Scalar)
        (params : Params) (opts ind : IndexOpts),
        check opts .fgemm A (some B) (some C) params = Except.ok ind →
        ind.M = 0 ∨ ind.N = 0 →
        Gemm check A B C alpha beta params opts = L3Out.done Option.none) ∧
    (∀ (check : CheckFn) (A B C : Matrix) (alpha beta : Scalar)
        (params : Params) (opts ind : IndexOpts),
        check opts .fsymm A (some B) (some C) params = Except.ok ind →
        ind.M ≠ 0 → ind.N ≠ 0 → EqualTypes3 A B C = false →
        Symm check A B C alpha beta params opts
          = L3Out.err "Parameters not of same type") ∧
    (∀ (check : CheckFn) (A B C : Matrix) (alpha beta : Scalar)
        (params : Params) (opts ind : IndexOpts),
        check opts .fsymm A (some B) (some C) params = Except.ok ind →
        ind.M = 0 ∨ ind.N = 0 →
        Symm check A B C alpha beta params opts = L3Out.done Option.none) ∧
    (∀ (check : CheckFn) (A C : Matrix) (alpha beta : Scalar)
        (params : Params) (opts ind : IndexOpts),
        check opts .fsyrk A Option.none (some C) params = Except.ok ind →
        EqualTypes2 A C = false →
        Syrk check A C alpha beta params opts
          = L3Out.err "Parameters not of same type") ∧
    (∀ (check : CheckFn) (A B C : Matrix) (alpha beta : Scalar)
        (params : Params) (opts ind : IndexOpts),
        check opts .fsyr2k A (some B) (some C) params = Except.ok ind →
        EqualTypes3 A B C = false →
        Syr2k check A B C alpha beta params opts
          = L3Out.err "Parameters not of same type") ∧
    (∀ (check : CheckFn) (A B : Matrix) (alpha : Scalar)
        (params : Params) (opts ind : IndexOpts),
        check opts .ftrmm A (some B) Option.none params = Except.ok ind →
        EqualTypes2 A B = false →
        Trmm check A B alpha params opts
          = L3Out.err "Parameters not of same type") ∧
    (∀ (check : CheckFn) (A B : Matrix) (alpha : Scalar)
        (params : Params) (opts ind : IndexOpts),
        check opts .ftrsm A (some B) Option.none params = Except.ok ind →
        EqualTypes2 A B = false →
        Trsm check A B alpha params opts
          = L3Out.err "Parameters not of same type") ∧
    (∀ (A B : Matrix) (ipiv : Option (List Int)) (op : IndexOpts),
        EqualTypes2 A B = false →
        (∀ n nrhs lda ldb ar br : Int,
          gesvResolve A B ipiv op ≠ ResolveOut.cfg n nrhs lda ldb ar br) ∧
        (∀ (dges : KernelF FloatV) (zges : KernelF CplxV) (r : GesvRes),
          Gesv dges zges A B ipiv op = GesvOut.ok r →
          r.called = false ∧ r.A = A ∧ r.B = B)) := by
  refine ⟨Gemm_mixed_err, Gemm_zero_dim, Symm_mixed_err, Symm_zero_dim,
    Syrk_mixed_err, Syr2k_mixed_err, Trmm_mixed_err, Trsm_mixed_err, ?_⟩
  intro A B ipiv op hmix
  exact ⟨fun n nrhs lda ldb ar br =>
      gesvResolve_mixed_ne_cfg A B ipiv op hmix n nrhs lda ldb ar br,
    fun dges zges r h => Gesv_mixed_no_kernel dges zges A B ipiv op r hmix h⟩

/-- Witness for C3: a concrete mixed-domain `Gemm` with nonzero dimensions
rejected with the type error; a concrete mixed-domain `Gemm` with m = 0
accepted; and a concrete mixed-domain `Gesv` that does not reach the kernel
and leaves both operands untouched. -/
theorem mixed_domain_rejected_amended_witness :
    Gemm checkOk fm11 cm11 fm11 Scalar.nil Scalar.nil prm0 opMNK1
      = L3Out.err "Parameters not of same type" ∧
    Gemm checkOk fm11 cm11 fm11 Scalar.nil Scalar.nil prm0 opM0
      = L3Out.done Option.none ∧
    ((⟨Except.error "Gesv: arguments not of same type", fm11, cm11,
        Option.none, false⟩ : GesvRes).called = false ∧
      (⟨Except.error "Gesv: arguments not of same type", fm11, cm11,
        Option.none, false⟩ : GesvRes).A = fm11 ∧
      (⟨Except.error "Gesv: arguments not of same type", fm11, cm11,
        Option.none, false⟩ : GesvRes).B = cm11) := by
  refine ⟨?_, ?_, ?_⟩
  · exact mixed_domain_rejected_amended.1 checkOk fm11 cm11 fm11
      Scalar.nil Scalar.nil prm0 opMNK1 opMNK1 rfl (by decide) (by decide)
      (by decide)
  · exact mixed_domain_rejected_amended.2.1 checkOk fm11 cm11 fm11
      Scalar.nil Scalar.nil prm0 opM0 opM0 rfl (Or.inl (by decide))
  · exact (mixed_domain_rejected_amended.2.2.2.2.2.2.2.2 fm11 cm11
      Option.none IndexOpts.unset (by decide)).2 dT zT
      ⟨Except.error "Gesv: arguments not of same type", fm11, cm11,
        Option.none, false⟩ (by decide)

/-- C10.  When `n` resolution succeeds and the resolved `n` or resolved
`nrhs` is 0, `Gesv` returns success immediately — before the stride,
offset, storage-size, permutation-length and operand-type checks — for
arbitrary (even invalid) strides and offsets, arbitrary (even undersized)
`ipiv`, and arbitrary (even mixed real/complex) operand domains; no kernel
is invoked and nothing is mutated. -/
theorem gesv_zero_dim_early_success (dges : KernelF FloatV)
    (zges : KernelF CplxV) (A B : Matrix) (ipiv : Option (List Int))
    (op : IndexOpts) (n : Int)
    (hn : resolveN A op = Except.ok n)
    (h0 : n = 0 ∨ resolveNrhs B op = 0) :
    gesvResolve A B ipiv op = ResolveOut.early ∧
    Gesv dges zges A B ipiv op
      = GesvOut.ok ⟨Except.ok (), A, B, ipiv, false⟩ := by
  have hres : gesvResolve A B ipiv op = ResolveOut.early := by
    unfold gesvResolve
    rw [hn]
    dsimp only
    rw [if_pos h0]
  refine ⟨hres, ?_⟩
  unfold Gesv
  rw [hres]

/-- Witness for C10: a `Gesv` call with explicit `n = 0`, a real `A` and a
complex `B`, negative strides and offsets, and an empty supplied `ipiv`
reports success. -/
theorem gesv_zero_dim_early_success_witness :
    gesvResolve fm11 cm11 (some []) gop10 = ResolveOut.early ∧
    Gesv dT zT fm11 cm11 (some []) gop10
      = GesvOut.ok ⟨Except.ok (), fm11, cm11, some [], false⟩ := by
  exact gesv_zero_dim_early_success dT zT fm11 cm11 (some []) gop10 0
    (by decide) (Or.inl rfl)

/-- C8 (amended).  For a `Gesv` call whose resolved `n` exceeds 1 and whose
resolved `nrhs` is nonzero (so the zero-dimension early return does not
fire), an explicitly supplied `ldA = n - 1` is rejected with the stride
error "Gesv: ldA" and an explicit `ldA = n` passes that check; with
`ldA = n`, an explicit `ldB = n - 1` is rejected with "Gesv: ldB" and an
explicit `ldB = n` passes both stride checks. -/
theorem gesv_stride_check_amended (A B : Matrix) (ipiv : Option (List Int))
    (op : IndexOpts) (n : Int)
    (hn : resolveN A op = Except.ok n) (h1 : 1 < n)
    (hr : resolveNrhs B op ≠ 0) :
    (op.LDa = n - 1 → gesvResolve A B ipiv op = ResolveOut.err "Gesv: ldA") ∧
    (op.LDa = n → gesvResolve A B ipiv op ≠ ResolveOut.err "Gesv: ldA") ∧
    (op.LDa = n → op.LDb = n - 1 →
      gesvResolve A B ipiv op = ResolveOut.err "Gesv: ldB") ∧
    (op.LDa = n → op.LDb = n →
      gesvResolve A B ipiv op ≠ ResolveOut.err "Gesv: ldA" ∧
      gesvResolve A B ipiv op ≠ ResolveOut.err "Gesv: ldB") := by
  have h0 : ¬ (n = 0 ∨ resolveNrhs B op = 0) := by
    rintro (h | h)
    · omega
    · exact hr h
  have hmx : max 1 n = n := max_eq_right (by omega)
  refine ⟨?_, ?_, ?_, ?_⟩
  · intro hLa
    unfold gesvResolve
    rw [hn]
    dsimp only
    rw [if_neg h0]
    rw [hLa]
    unfold ldResolve
    rw [if_neg (show ¬ (n - 1 = 0) by omega), hmx,
      if_pos (show n - 1 < n by omega)]
  · intro hLa hcontra
    unfold gesvResolve at hcontra
    rw [hn] at hcontra
    dsimp only at hcontra
    rw [if_neg h0, hLa] at hcontra
    unfold ldResolve at hcontra
    rw [hmx] at hcontra
    simp only [if_neg (show ¬ (n = 0) by omega),
      if_neg (show ¬ (n < n) by omega)] at hcontra
    repeat' split at hcontra
    all_goals first
      | exact absurd hcontra (by decide)
      | simp at hcontra
  · intro hLa hLb
    unfold gesvResolve
    rw [hn]
    dsimp only
    rw [if_neg h0, hLa, hLb]
    unfold ldResolve
    rw [hmx]
    simp only [if_neg (show ¬ (n = 0) by omega),
      if_neg (show ¬ (n - 1 = 0) by omega),
      if_neg (show ¬ (n < n) by omega),
      if_pos (show n - 1 < n by omega)]
  · intro hLa hLb
    constructor <;>
    · intro hcontra
      unfold gesvResolve at hcontra
      rw [hn] at hcontra
      dsimp only at hcontra
      rw [if_neg h0, hLa, hLb] at hcontra
      unfold ldResolve at hcontra
      rw [hmx] at hcontra
      simp only [if_neg (show ¬ (n = 0) by omega),
        if_neg (show ¬ (n < n) by omega)] at hcontra
      repeat' split at hcontra
      all_goals first
        | exact absurd hcontra (by decide)
        | simp at hcontra

/-- Witness for C8: on a 2-by-2 system with explicit `n = 2`, `nrhs = 1`,
an explicit `ldA = 1` is rejected with "Gesv: ldA" while `ldA = 2` passes
the stride check. -/
theorem gesv_stride_check_amended_witness :
    gesvResolve gA2 gB21 Option.none gopLdA1 = ResolveOut.err "Gesv: ldA" ∧
    gesvResolve gA2 gB21 Option.none gopLdA2 ≠ ResolveOut.err "Gesv: ldA" := by
  constructor
  · exact (gesv_stride_check_amended gA2 gB21 Option.none gopLdA1 2
      (by decide) (by decide) (by decide)).1 rfl
  · exact (gesv_stride_check_amended gA2 gB21 Option.none gopLdA2 2
      (by decide) (by decide) (by decide)).2.1 rfl

/-- C7.  For valid operand shapes (`A` square), the all-unset option set
(`n`, `nrhs` negative; `ldA`, `ldB` zero; offsets zero) resolves to exactly
the configuration `n = A.Rows`, `nrhs = B.Cols`,
`ldA = max(1, A.LeadingIndex)`, `ldB = max(1, B.LeadingIndex)` with the same
effective row strides and offsets, and a `Gesv` call with that configuration
supplied fully explicitly is indistinguishable: same resolution outcome,
same accept/reject behavior, and the same kernel arguments and caller-visible
effects. -/
theorem gesv_defaults_eq_explicit (dges : KernelF FloatV)
    (zges : KernelF CplxV) (A B : Matrix) (ipiv : Option (List Int))
    (hsq : A.Rows = A.Cols) :
    gesvResolve A B ipiv IndexOpts.unset
      = gesvResolve A B ipiv (explicitOpts A B) ∧
    Gesv dges zges A B ipiv IndexOpts.unset
      = Gesv dges zges A B ipiv (explicitOpts A B) := by
  have hA : ¬ ((A.Rows : Int) < 0) := by
    exact Int.not_lt.mpr (Int.natCast_nonneg _)
  have hB : ¬ ((B.Cols : Int) < 0) := by
    exact Int.not_lt.mpr (Int.natCast_nonneg _)
  have hmA : ¬ (max 1 ((A.LeadingIndex : Int)) = 0) := by
    have := le_max_left (1 : Int) ((A.LeadingIndex : Int))
    omega
  have hmB : ¬ (max 1 ((B.LeadingIndex : Int)) = 0) := by
    have := le_max_left (1 : Int) ((B.LeadingIndex : Int))
    omega
  have h1 : gesvResolve A B ipiv IndexOpts.unset
      = gesvResolve A B ipiv (explicitOpts A B) := by
    unfold gesvResolve resolveN resolveNrhs ldResolve rowsResolve
      IndexOpts.unset explicitOpts Matrix.LeadingIndex
    simp [hsq, hA, hB, hmA, hmB]
  refine ⟨h1, ?_⟩
  unfold Gesv
  rw [h1]
  rcases hr : gesvResolve A B ipiv (explicitOpts A B) with
    m | _ | ⟨n2, nr2, la2, lb2, a2, b2⟩ <;> rfl

/-- Witness for C7: the 2-by-2 system with all options unset behaves
identically to the same call with the resolved configuration made explicit. -/
theorem gesv_defaults_eq_explicit_witness :
    gA2.Rows = gA2.Cols ∧
    Gesv dW zT gA2 gB21 Option.none IndexOpts.unset
      = Gesv dW zT gA2 gB21 Option.none (explicitOpts gA2 gB21) := by
  exact ⟨by decide,
    (gesv_defaults_eq_explicit dW zT gA2 gB21 Option.none (by decide)).2⟩

/-- C6.  A validated `Gesv` call with no caller-supplied permutation buffer
that does not panic returns the caller's `A` unchanged (the factorization
runs on a private copy), exposes no pivot information (the caller-visible
permutation buffer stays absent), invokes the kernel, and replaces `B` with
the kernel's output written over `B`'s storage from `offsetB` on — on
success, the solution X under the kernel's contract. -/
theorem gesv_nil_ipiv_private_copy (dges : KernelF FloatV)
    (zges : KernelF CplxV) (A B : Matrix) (op : IndexOpts)
    (n nrhs lda ldb ar br : Int)
    (hres : gesvResolve A B Option.none op
      = ResolveOut.cfg n nrhs lda ldb ar br)
    (r : GesvRes)
    (hG : Gesv dges zges A B Option.none op = GesvOut.ok r) :
    r.A = A ∧ r.ipiv = Option.none ∧ r.called = true ∧
    (∀ (Am Bm : MatData FloatV), A = Matrix.fm Am → B = Matrix.fm Bm →
      r.B = Matrix.fm ⟨Bm.rows, Bm.cols,
        updSeg Bm.data op.OffsetB
          (dges n nrhs ((Am.data.drop op.OffsetA.toNat).take (lda * ldb).toNat)
            lda (List.replicate n.toNat 0)
            (Bm.data.drop op.OffsetB.toNat) ldb).2.2.1⟩) ∧
    (∀ (Am Bm : MatData CplxV), A = Matrix.cm Am → B = Matrix.cm Bm →
      r.B = Matrix.cm ⟨Bm.rows, Bm.cols,
        updSeg Bm.data op.OffsetB
          (zges n nrhs ((Am.data.drop op.OffsetA.toNat).take (lda * ldb).toNat)
            lda (List.replicate n.toNat 0)
            (Bm.data.drop op.OffsetB.toNat) ldb).2.2.1⟩) := by
  unfold Gesv at hG
  rw [hres] at hG
  cases A with
  | fm Am =>
    cases B with
    | fm Bm =>
      simp only [Matrix.MakeCopy, Option.isNone, eq_self_iff_true,
        if_true] at hG
      rcases hA : sliceFrom Am.data op.OffsetA with _ | Aa0
      · rw [hA] at hG
        exact absurd hG (by simp)
      · rw [hA] at hG
        dsimp only at hG
        rcases hA2 : sliceTo Aa0 (lda * ldb) with _ | Aa
        · rw [hA2] at hG
          exact absurd hG (by simp)
        · rw [hA2] at hG
          dsimp only at hG
          rcases hB : sliceFrom Bm.data op.OffsetB with _ | Ba
          · rw [hB] at hG
            exact absurd hG (by simp)
          · rw [hB] at hG
            dsimp only at hG
            have e1 : Aa0 = Am.data.drop op.OffsetA.toNat := by
              unfold sliceFrom at hA
              split at hA
              · exact (Option.some.inj hA).symm
              · exact absurd hA (by simp)
            have e2 : Aa = Aa0.take (lda * ldb).toNat := by
              unfold sliceTo at hA2
              split at hA2
              · exact (Option.some.inj hA2).symm
              · exact absurd hA2 (by simp)
            have e3 : Ba = Bm.data.drop op.OffsetB.toNat := by
              unfold sliceFrom at hB
              split at hB
              · exact (Option.some.inj hB).symm
              · exact absurd hB (by simp)
            injection hG with h2
            subst h2
            refine ⟨rfl, rfl, rfl, ?_, ?_⟩
            · intro Am2 Bm2 hAe hBe
              injection hAe with h3
              injection hBe with h4
              subst h3
              subst h4
              rw [e2, e1, e3]
            · intro Am2 Bm2 hAe hBe
              exact absurd hAe (by simp)
    | cm Bm =>
      simp only [Matrix.MakeCopy, Option.isNone, eq_self_iff_true,
        if_true] at hG
      exact absurd hG (by simp)
  | cm Am =>
    cases B with
    | fm Bm =>
      simp only [Matrix.MakeCopy, Option.isNone, eq_self_iff_true,
        if_true] at hG
      exact absurd hG (by simp)
    | cm Bm =>
      simp only [Matrix.MakeCopy, Option.isNone, eq_self_iff_true,
        if_true] at hG
      rcases hA : sliceFrom Am.data op.OffsetA with _ | Aa0
      · rw [hA] at hG
        exact absurd hG (by simp)
      · rw [hA] at hG
        dsimp only at hG
        rcases hA2 : sliceTo Aa0 (lda * ldb) with _ | Aa
        · rw [hA2] at hG
          exact absurd hG (by simp)
        · rw [hA2] at hG
          dsimp only at hG
          rcases hB : sliceFrom Bm.data op.OffsetB with _ | Ba
          · rw [hB] at hG
            exact absurd hG (by simp)
          · rw [hB] at hG
            dsimp only at hG
            have e1 : Aa0 = Am.data.drop op.OffsetA.toNat := by
              unfold sliceFrom at hA
              split at hA
              · exact (Option.some.inj hA).symm
              · exact absurd hA (by simp)
            have e2 : Aa = Aa0.take (lda * ldb).toNat := by
              unfold sliceTo at hA2
              split at hA2
              · exact (Option.some.inj hA2).symm
              · exact absurd hA2 (by simp)
            have e3 : Ba = Bm.data.drop op.OffsetB.toNat := by
              unfold sliceFrom at hB
              split at hB
              · exact (Option.some.inj hB).symm
              · exact absurd hB (by simp)
            injection hG with h2
            subst h2
            refine ⟨rfl, rfl, rfl, ?_, ?_⟩
            · intro Am2 Bm2 hAe hBe
              exact absurd hAe (by simp)
            · intro Am2 Bm2 hAe hBe
              injection hAe with h3
              injection hBe with h4
              subst h3
              subst h4
              rw [e2, e1, e3]

/-- Witness for C6: a concrete 2-by-2 real call with no permutation buffer
and a kernel that overwrites everything it is handed still returns the
caller's `A` unchanged, exposes no pivots, and replaces `B` with the
kernel's output. -/
theorem gesv_nil_ipiv_private_copy_witness :
    Gesv dW zT gA2 gB21 Option.none IndexOpts.unset
      = GesvOut.ok ⟨Except.ok (), gA2,
          Matrix.fm ⟨2, 1, [some 1, some 1]⟩, Option.none, true⟩ ∧
    (⟨Except.ok (), gA2, Matrix.fm ⟨2, 1, [some 1, some 1]⟩,
        Option.none, true⟩ : GesvRes).A = gA2 ∧
    (⟨Except.ok (), gA2, Matrix.fm ⟨2, 1, [some 1, some 1]⟩,
        Option.none, true⟩ : GesvRes).ipiv = Option.none ∧
    (⟨Except.ok (), gA2, Matrix.fm ⟨2, 1, [some 1, some 1]⟩,
        Option.none, true⟩ : GesvRes).called = true := by
  have h := gesv_nil_ipiv_private_copy dW zT gA2 gB21 IndexOpts.unset
    2 1 2 2 2 2 (by decide)
    ⟨Except.ok (), gA2, Matrix.fm ⟨2, 1, [some 1, some 1]⟩,
      Option.none, true⟩ (by decide)
  exact ⟨by decide, h.1, h.2.1, h.2.2.1⟩

end LinalgModel
